import Mathlib

/-!
Shallow embedding of the accounting core of the accounts-project repository:
the transaction handlers (src/server/src/handlers/transactions.ts), the report
handlers (the reports implementation file), the financial-year and ledger
handlers (src/server/src/handlers/reports.ts, ledgers.ts), and the input
schema (src/server/src/schema.ts).

Monetary amounts are modelled as rationals (the store keeps them as
fixed-point decimals with 2 fractional digits). Dates are modelled as
integers with the usual order; only their order is ever used by the code.
Each database table is a list of rows, and every handler is a pure function
from a database state to a database state plus a result.
-/

namespace Accounts

/-- The balance_type pg enum: debit or credit. -/
inductive BalanceType where
  | debit
  | credit
deriving DecidableEq, Repr

/-- The opposite side, used for the polarity flip in closing balances. -/
def BalanceType.opposite : BalanceType → BalanceType
  | .debit => .credit
  | .credit => .debit

/-- A row of the ledgers table (db/schema.ts). Timestamps are omitted:
no handler reads them. -/
structure Ledger where
  id : Nat
  name : String
  group_id : Nat
  contact_id : Option Nat
  opening_balance : ℚ
  balance_type : BalanceType
deriving DecidableEq, Repr

/-- A row of the groups table. -/
structure Group where
  id : Nat
  name : String
  parent_group_id : Option Nat
deriving DecidableEq, Repr

/-- A row of the transaction_entries table. -/
structure TransactionEntry where
  id : Nat
  entry_number : String
  entry_date : Int
  description : String
  total_amount : ℚ
  is_correction : Bool
  original_entry_id : Option Nat
deriving DecidableEq, Repr

/-- A row of the transaction_details table. -/
structure TransactionDetail where
  id : Nat
  entry_id : Nat
  ledger_id : Nat
  debit_amount : ℚ
  credit_amount : ℚ
  description : Option String
deriving DecidableEq, Repr

/-- A row of the financial_years table. -/
structure FinancialYear where
  id : Nat
  name : String
  start_date : Int
  end_date : Int
  is_active : Bool
deriving DecidableEq, Repr

/-- The relational store: one list per table, plus the serial id counters
for the two tables the handlers insert into. -/
structure DB where
  ledgers : List Ledger
  groups : List Group
  entries : List TransactionEntry
  details : List TransactionDetail
  financial_years : List FinancialYear
  next_entry_id : Nat
  next_detail_id : Nat
deriving DecidableEq, Repr

/-! ## Trial balance (getTrialBalance)

The query is

  FROM ledgers
  LEFT JOIN transaction_details ON ledgers.id = details.ledger_id
  LEFT JOIN transaction_entries ON details.entry_id = entries.id
                                AND entries.entry_date <= as_on_date
  GROUP BY ledger, ORDER BY ledgers.name ASC

The as_on_date bound sits in the ON clause of the second LEFT JOIN, so a
detail row of the ledger survives into the group (with a null entry) even
when its owning entry is dated after as_on_date; the embedding reproduces
that join shape exactly. -/

/-- The joined rows the trial balance query produces for one ledger: every
detail of the ledger, paired with its entry when that entry also satisfies
the date bound, and with none otherwise. -/
def tbDetailRows (db : DB) (asOn : Int) (l : Ledger) :
    List (TransactionDetail × Option TransactionEntry) :=
  (db.details.filter (fun d => d.ledger_id == l.id)).map
    (fun d => (d, db.entries.find?
      (fun e => e.id == d.entry_id && decide (e.entry_date ≤ asOn))))

/-- sum(details.debit_amount) for one ledger group of the trial balance
query (null sum read back as 0). -/
def tbTotalDebit (db : DB) (asOn : Int) (l : Ledger) : ℚ :=
  ((tbDetailRows db asOn l).map (fun p => p.1.debit_amount)).sum

/-- sum(details.credit_amount) for one ledger group of the trial balance
query. -/
def tbTotalCredit (db : DB) (asOn : Int) (l : Ledger) : ℚ :=
  ((tbDetailRows db asOn l).map (fun p => p.1.credit_amount)).sum

/-- The signed closing balance computed in the map step of getTrialBalance:
opening + debits - credits for a debit-type ledger, opening + credits -
debits otherwise. -/
def closingSigned (bt : BalanceType) (opening totalDebit totalCredit : ℚ) : ℚ :=
  match bt with
  | .debit => opening + totalDebit - totalCredit
  | .credit => opening + totalCredit - totalDebit

/-- One row of the trial balance report. -/
structure TrialBalanceRow where
  ledger_id : Nat
  ledger_name : String
  opening_balance : ℚ
  balance_type : BalanceType
  total_debit : ℚ
  total_credit : ℚ
  closing_balance : ℚ
  closing_balance_type : BalanceType
deriving DecidableEq, Repr

/-- ORDER BY ledgers.name ASC. -/
def sortLedgersByName (ls : List Ledger) : List Ledger :=
  ls.insertionSort (fun a b => a.name ≤ b.name)

/-- The map step of getTrialBalance for one ledger group. -/
def mkTrialBalanceRow (db : DB) (asOn : Int) (l : Ledger) : TrialBalanceRow :=
  let totalDebit := tbTotalDebit db asOn l
  let totalCredit := tbTotalCredit db asOn l
  let closing := closingSigned l.balance_type l.opening_balance totalDebit totalCredit
  { ledger_id := l.id
    ledger_name := l.name
    opening_balance := l.opening_balance
    balance_type := l.balance_type
    total_debit := totalDebit
    total_credit := totalCredit
    closing_balance := |closing|
    closing_balance_type :=
      if 0 ≤ closing then l.balance_type else l.balance_type.opposite }

/-- getTrialBalance: one row per ledger, ordered by ledger name. -/
def getTrialBalance (db : DB) (asOn : Int) : List TrialBalanceRow :=
  (sortLedgersByName db.ledgers).map (mkTrialBalanceRow db asOn)

/-- The total the specification describes for the trial balance: the sum of
debit amounts over exactly those details of the ledger whose owning entry
has entry_date <= as_on_date. Stated from the words of the spec, for
comparison with the total the query actually computes. -/
def specTotalDebit (db : DB) (asOn : Int) (ledgerId : Nat) : ℚ :=
  ((db.details.filter (fun d => d.ledger_id == ledgerId &&
      db.entries.any (fun e => e.id == d.entry_id && decide (e.entry_date ≤ asOn)))).map
    (fun d => d.debit_amount)).sum

/-! ## Profit and loss (getProfitAndLoss) and balance sheet (getBalanceSheet)

Both queries start from

  FROM ledgers
  INNER JOIN groups ON ledgers.group_id = groups.id
  LEFT JOIN transaction_details ON ledgers.id = details.ledger_id
  LEFT JOIN transaction_entries ON details.entry_id = entries.id AND <dates>
  GROUP BY ledger, ORDER BY groups.name ASC, ledgers.name ASC

with the date bounds again inside the ON clause of the entries LEFT JOIN,
so the per-ledger sums again range over every detail of the ledger. -/

/-- The INNER JOIN of ledgers with groups: ledgers whose group id matches no
group row are dropped (group ids are a primary key, so at most one group
matches). -/
def plJoinLedgers (db : DB) : List (Ledger × Group) :=
  db.ledgers.filterMap
    (fun l => (db.groups.find? (fun g => g.id == l.group_id)).map (fun g => (l, g)))

/-- ORDER BY groups.name ASC, ledgers.name ASC. -/
def plSort (xs : List (Ledger × Group)) : List (Ledger × Group) :=
  xs.insertionSort
    (fun a b => a.2.name < b.2.name ∨ (a.2.name = b.2.name ∧ a.1.name ≤ b.1.name))

/-- The joined detail rows of one ledger group in getProfitAndLoss: the date
window sits in the ON clause of the entries join, so every detail of the
ledger is present. -/
def plDetailRows (db : DB) (startDate endDate : Int) (l : Ledger) :
    List (TransactionDetail × Option TransactionEntry) :=
  (db.details.filter (fun d => d.ledger_id == l.id)).map
    (fun d => (d, db.entries.find? (fun e => e.id == d.entry_id &&
      decide (startDate ≤ e.entry_date) && decide (e.entry_date ≤ endDate))))

/-- sum(details.debit_amount) for one ledger group of getProfitAndLoss. -/
def plTotalDebit (db : DB) (startDate endDate : Int) (l : Ledger) : ℚ :=
  ((plDetailRows db startDate endDate l).map (fun p => p.1.debit_amount)).sum

/-- sum(details.credit_amount) for one ledger group of getProfitAndLoss. -/
def plTotalCredit (db : DB) (startDate endDate : Int) (l : Ledger) : ℚ :=
  ((plDetailRows db startDate endDate l).map (fun p => p.1.credit_amount)).sum

/-- One classified ledger line of the profit and loss report (also the shape
of a balance sheet line). -/
structure ReportLedgerRow where
  ledger_id : Nat
  ledger_name : String
  group_name : String
  amount : ℚ
deriving DecidableEq, Repr

/-- The profit and loss report record. -/
structure ProfitAndLossReport where
  start_date : Int
  end_date : Int
  income : List ReportLedgerRow
  expenses : List ReportLedgerRow
  total_income : ℚ
  total_expenses : ℚ
  net_profit : ℚ
  net_loss : ℚ
deriving DecidableEq, Repr

/-- Accumulator of the forEach loop of getProfitAndLoss: income rows,
expense rows, total income, total expenses. -/
abbrev PLAcc := List ReportLedgerRow × List ReportLedgerRow × ℚ × ℚ

/-- One iteration of the forEach loop of getProfitAndLoss: net is credits
minus debits; positive net pushes an income row, negative net an expense
row, zero net pushes nothing. -/
def plStep (db : DB) (startDate endDate : Int) (acc : PLAcc) (lg : Ledger × Group) : PLAcc :=
  let net := plTotalCredit db startDate endDate lg.1 - plTotalDebit db startDate endDate lg.1
  let row : ReportLedgerRow :=
    { ledger_id := lg.1.id, ledger_name := lg.1.name,
      group_name := lg.2.name, amount := |net| }
  if 0 < net then (acc.1 ++ [row], acc.2.1, acc.2.2.1 + |net|, acc.2.2.2)
  else if net < 0 then (acc.1, acc.2.1 ++ [row], acc.2.2.1, acc.2.2.2 + |net|)
  else acc

/-- getProfitAndLoss. -/
def getProfitAndLoss (db : DB) (startDate endDate : Int) : ProfitAndLossReport :=
  let acc := (plSort (plJoinLedgers db)).foldl (plStep db startDate endDate) ([], [], 0, 0)
  let netProfit := acc.2.2.1 - acc.2.2.2
  { start_date := startDate
    end_date := endDate
    income := acc.1
    expenses := acc.2.1
    total_income := acc.2.2.1
    total_expenses := acc.2.2.2
    net_profit := netProfit
    net_loss := if netProfit < 0 then |netProfit| else 0 }

/-- The window-restricted credit total the specification describes for the
profit and loss report, stated from the words of the spec for comparison
with the total the query actually computes. -/
def specWindowCredit (db : DB) (startDate endDate : Int) (ledgerId : Nat) : ℚ :=
  ((db.details.filter (fun d => d.ledger_id == ledgerId &&
      db.entries.any (fun e => e.id == d.entry_id &&
        decide (startDate ≤ e.entry_date) && decide (e.entry_date ≤ endDate)))).map
    (fun d => d.credit_amount)).sum

/-- The balance sheet report record. -/
structure BalanceSheetReport where
  as_on_date : Int
  assets : List ReportLedgerRow
  liabilities : List ReportLedgerRow
  total_assets : ℚ
  total_liabilities : ℚ
  difference : ℚ
deriving DecidableEq, Repr

/-- The signed closing balance getBalanceSheet computes for one ledger (the
same computation as the trial balance, on the same undated detail sums). -/
def bsClosing (db : DB) (asOn : Int) (l : Ledger) : ℚ :=
  closingSigned l.balance_type l.opening_balance (tbTotalDebit db asOn l) (tbTotalCredit db asOn l)

/-- Accumulator of the forEach loop of getBalanceSheet: asset rows,
liability rows, total assets, total liabilities. -/
abbrev BSAcc := List ReportLedgerRow × List ReportLedgerRow × ℚ × ℚ

/-- One iteration of the forEach loop of getBalanceSheet: ledgers with
|closing| <= 0.01 are skipped; a positive closing goes to assets when the
ledger is debit-type and to liabilities when credit-type, a negative
closing the other way around. -/
def bsStep (db : DB) (asOn : Int) (acc : BSAcc) (lg : Ledger × Group) : BSAcc :=
  let closing := bsClosing db asOn lg.1
  let row : ReportLedgerRow :=
    { ledger_id := lg.1.id, ledger_name := lg.1.name,
      group_name := lg.2.name, amount := |closing| }
  if (1 : ℚ)/100 < |closing| then
    if 0 < closing ∧ lg.1.balance_type = .debit then
      (acc.1 ++ [row], acc.2.1, acc.2.2.1 + |closing|, acc.2.2.2)
    else if 0 < closing ∧ lg.1.balance_type = .credit then
      (acc.1, acc.2.1 ++ [row], acc.2.2.1, acc.2.2.2 + |closing|)
    else if closing < 0 ∧ lg.1.balance_type = .debit then
      (acc.1, acc.2.1 ++ [row], acc.2.2.1, acc.2.2.2 + |closing|)
    else if closing < 0 ∧ lg.1.balance_type = .credit then
      (acc.1 ++ [row], acc.2.1, acc.2.2.1 + |closing|, acc.2.2.2)
    else acc
  else acc

/-- getBalanceSheet. -/
def getBalanceSheet (db : DB) (asOn : Int) : BalanceSheetReport :=
  let acc := (plSort (plJoinLedgers db)).foldl (bsStep db asOn) ([], [], 0, 0)
  { as_on_date := asOn
    assets := acc.1
    liabilities := acc.2.1
    total_assets := acc.2.2.1
    total_liabilities := acc.2.2.2
    difference := acc.2.2.1 - acc.2.2.2 }

/-! ## Transaction handlers (transactions.ts)

createTransaction and correctTransaction validate, then issue one entry
INSERT followed by one detail INSERT per line, each as a separate await
with no surrounding db.transaction. The store may fail any single write
(connectivity, constraint violation); the "failAt" oracle selects which
write operation, counted from 0 for the entry INSERT, fails first (none
means every write succeeds). A failing write leaves the state as the
earlier writes left it, and the catch block only logs and rethrows, so
nothing is rolled back. -/

/-- A parsed line of the create-transaction input (schema.ts, after zod
parsing applied the defaults). -/
structure CreateTransactionDetailInput where
  ledger_id : Nat
  debit_amount : ℚ
  credit_amount : ℚ
  description : Option String
deriving DecidableEq, Repr

/-- The parsed create-transaction input. -/
structure CreateTransactionInput where
  entry_date : Int
  description : String
  details : List CreateTransactionDetailInput
deriving DecidableEq, Repr

/-- Outcome of a transaction handler: the returned entry, or the message of
the thrown error. -/
inductive TxResult where
  | ok (entry : TransactionEntry)
  | err (msg : String)
deriving DecidableEq, Repr

/-- The ledger-existence loop: the first input line whose ledger id has no
row in the ledgers table, if any. -/
def findMissingLedger (db : DB) (ds : List CreateTransactionDetailInput) : Option Nat :=
  (ds.find? (fun d => !(db.ledgers.any (fun l => l.id == d.ledger_id)))).map
    (fun d => d.ledger_id)

/-- The detail INSERT loop. Each write is numbered by opIdx; the write at
the failAt index fails, leaving the writes already performed in place. -/
def insertDetails (failAt : Option Nat) (opIdx : Nat) (entry : TransactionEntry)
    (db : DB) : List CreateTransactionDetailInput → DB × TxResult
  | [] => (db, .ok entry)
  | d :: rest =>
    if failAt = some opIdx then (db, .err "insert failed")
    else
      let row : TransactionDetail :=
        { id := db.next_detail_id
          entry_id := entry.id
          ledger_id := d.ledger_id
          debit_amount := d.debit_amount
          credit_amount := d.credit_amount
          description := d.description }
      insertDetails failAt (opIdx + 1) entry
        { db with details := db.details ++ [row], next_detail_id := db.next_detail_id + 1 }
        rest

/-- createTransaction. The entry number is derived from the current
timestamp, modelled by the "now" parameter. -/
def createTransaction (failAt : Option Nat) (now : Nat) (db : DB)
    (input : CreateTransactionInput) : DB × TxResult :=
  match findMissingLedger db input.details with
  | some missingId =>
    (db, .err ("Ledger with id " ++ toString missingId ++ " does not exist"))
  | none =>
    let totalDebits := (input.details.map (fun d => d.debit_amount)).sum
    let totalCredits := (input.details.map (fun d => d.credit_amount)).sum
    if (1 : ℚ)/100 < |totalDebits - totalCredits| then
      (db, .err "Total debits must equal total credits")
    else if failAt = some 0 then (db, .err "insert failed")
    else
      let entry : TransactionEntry :=
        { id := db.next_entry_id
          entry_number := "TXN-" ++ toString now
          entry_date := input.entry_date
          description := input.description
          total_amount := totalDebits
          is_correction := false
          original_entry_id := none }
      insertDetails failAt 1 entry
        { db with entries := db.entries ++ [entry], next_entry_id := db.next_entry_id + 1 }
        input.details

/-- correctTransaction: verifies the original entry exists, re-runs the
create-transaction validations on the correction lines, then inserts a new
entry with is_correction set and original_entry_id pointing at the
original, plus its own detail lines. -/
def correctTransaction (failAt : Option Nat) (now : Nat) (db : DB)
    (originalId : Nat) (cd : CreateTransactionInput) : DB × TxResult :=
  if !(db.entries.any (fun e => e.id == originalId)) then
    (db, .err ("Original transaction with id " ++ toString originalId ++ " not found"))
  else
    match findMissingLedger db cd.details with
    | some missingId =>
      (db, .err ("Ledger with id " ++ toString missingId ++ " does not exist"))
    | none =>
      let totalDebits := (cd.details.map (fun d => d.debit_amount)).sum
      let totalCredits := (cd.details.map (fun d => d.credit_amount)).sum
      if (1 : ℚ)/100 < |totalDebits - totalCredits| then
        (db, .err "Total debits must equal total credits")
      else if failAt = some 0 then (db, .err "insert failed")
      else
        let entry : TransactionEntry :=
          { id := db.next_entry_id
            entry_number := "COR-" ++ toString originalId ++ "-" ++ toString now
            entry_date := cd.entry_date
            description := cd.description
            total_amount := totalDebits
            is_correction := true
            original_entry_id := some originalId }
        insertDetails failAt 1 entry
          { db with entries := db.entries ++ [entry], next_entry_id := db.next_entry_id + 1 }
          cd.details

/-- Outcome of a delete handler: the success record, or the message of the
thrown error. -/
inductive DeleteResult where
  | ok (success : Bool)
  | err (msg : String)
deriving DecidableEq, Repr

/-- deleteTransaction: throws when the entry id does not exist, otherwise
deletes the details of the entry and then the entry. -/
def deleteTransaction (db : DB) (entryId : Nat) : DB × DeleteResult :=
  if db.entries.any (fun e => e.id == entryId) then
    let db1 := { db with details := db.details.filter (fun d => !(d.entry_id == entryId)) }
    let db2 := { db1 with entries := db1.entries.filter (fun e => !(e.id == entryId)) }
    (db2, .ok true)
  else
    (db, .err ("Transaction with id " ++ toString entryId ++ " not found"))

/-- deleteLedger (ledgers.ts): DELETE ... RETURNING with no existence
check; success reports whether any row was deleted. -/
def deleteLedger (db : DB) (ledgerId : Nat) : DB × DeleteResult :=
  let removed := db.ledgers.filter (fun l => l.id == ledgerId)
  ({ db with ledgers := db.ledgers.filter (fun l => !(l.id == ledgerId)) },
   .ok (!removed.isEmpty))

/-- deleteFinancialYear (reports.ts): DELETE ... RETURNING with no
existence check; success reports whether any row was deleted. -/
def deleteFinancialYear (db : DB) (fyId : Nat) : DB × DeleteResult :=
  let removed := db.financial_years.filter (fun fy => fy.id == fyId)
  ({ db with financial_years := db.financial_years.filter (fun fy => !(fy.id == fyId)) },
   .ok (!removed.isEmpty))

/-- Outcome of setActiveFinancialYear. -/
inductive FYResult where
  | ok (fy : FinancialYear)
  | err (msg : String)
deriving DecidableEq, Repr

/-- setActiveFinancialYear (reports.ts): first an UPDATE sets is_active to
false on every row, then an UPDATE ... RETURNING sets is_active to true on
the rows whose id matches; an empty returning set raises the not-found
error (after the deactivation has already been applied — there is no
surrounding transaction). -/
def setActiveFinancialYear (db : DB) (fyId : Nat) : DB × FYResult :=
  let deactivated := db.financial_years.map (fun fy => { fy with is_active := false })
  let activated := deactivated.map
    (fun fy => if fy.id == fyId then { fy with is_active := true } else fy)
  ({ db with financial_years := activated },
   match activated.filter (fun fy => fy.id == fyId) with
   | [] => .err "Financial year not found"
   | fy :: _ => .ok fy)

/-! ## Input schema (schema.ts)

createTransactionInputSchema: entry_date is a coerced date, description a
string of length at least 1, details an array of at least 2 objects whose
debit_amount and credit_amount are plain numbers defaulting to 0 (the
schema places no sign constraint on them) and whose description is
optional and nullable. -/

/-- A raw detail line as submitted to the schema, before defaults apply. -/
structure RawTransactionDetail where
  ledger_id : Nat
  debit_amount : Option ℚ
  credit_amount : Option ℚ
  description : Option (Option String)
deriving DecidableEq, Repr

/-- A raw create-transaction request body. -/
structure RawCreateTransactionInput where
  entry_date : Int
  description : String
  details : List RawTransactionDetail
deriving DecidableEq, Repr

/-- createTransactionInputSchema as a parse function: none when validation
rejects the input, otherwise the parsed input with defaults applied. -/
def createTransactionInputSchema (raw : RawCreateTransactionInput) :
    Option CreateTransactionInput :=
  if 1 ≤ raw.description.length ∧ 2 ≤ raw.details.length then
    some
      { entry_date := raw.entry_date
        description := raw.description
        details := raw.details.map (fun d =>
          { ledger_id := d.ledger_id
            debit_amount := d.debit_amount.getD 0
            credit_amount := d.credit_amount.getD 0
            description := d.description.getD none }) }
  else none

/-! ## Concrete states used by the evaluation theorems and witnesses -/

/-- A store with a single debit ledger of opening balance 0, one entry
dated 10, and one detail debiting that ledger 5. -/
def dbLateEntry : DB :=
  { ledgers := [{ id := 1, name := "Cash", group_id := 1, contact_id := none,
                  opening_balance := 0, balance_type := .debit }]
    groups := [{ id := 1, name := "Assets", parent_group_id := none }]
    entries := [{ id := 1, entry_number := "TXN001", entry_date := 10,
                  description := "late entry", total_amount := 5,
                  is_correction := false, original_entry_id := none }]
    details := [{ id := 1, entry_id := 1, ledger_id := 1,
                  debit_amount := 5, credit_amount := 0, description := none }]
    financial_years := []
    next_entry_id := 2
    next_detail_id := 2 }

/-- A store with a single credit ledger in one group, one entry dated 10,
and one detail crediting that ledger 5. -/
def dbLateCredit : DB :=
  { ledgers := [{ id := 1, name := "Sales", group_id := 1, contact_id := none,
                  opening_balance := 0, balance_type := .credit }]
    groups := [{ id := 1, name := "Income", parent_group_id := none }]
    entries := [{ id := 1, entry_number := "TXN002", entry_date := 10,
                  description := "late entry", total_amount := 5,
                  is_correction := false, original_entry_id := none }]
    details := [{ id := 1, entry_id := 1, ledger_id := 1,
                  debit_amount := 0, credit_amount := 5, description := none }]
    financial_years := []
    next_entry_id := 2
    next_detail_id := 2 }

/-- The Cash ledger of the round-trip scenario in the spec: opening 10000,
debit type. -/
def cashRoundTrip : Ledger :=
  { id := 1, name := "Cash", group_id := 1, contact_id := none,
    opening_balance := 10000, balance_type := .debit }

/-- The Assets group of the round-trip scenario. -/
def assetsGroup : Group := { id := 1, name := "Assets", parent_group_id := none }

/-- The round-trip scenario of the spec: Cash debited 5000 by TXN001 and
credited 3000 by TXN002, both dated before the as-on date 31. -/
def dbRoundTrip : DB :=
  { ledgers := [cashRoundTrip]
    groups := [assetsGroup]
    entries := [{ id := 1, entry_number := "TXN001", entry_date := 15,
                  description := "cash sale", total_amount := 5000,
                  is_correction := false, original_entry_id := none },
                { id := 2, entry_number := "TXN002", entry_date := 20,
                  description := "cash spend", total_amount := 3000,
                  is_correction := false, original_entry_id := none }]
    details := [{ id := 1, entry_id := 1, ledger_id := 1,
                  debit_amount := 5000, credit_amount := 0, description := none },
                { id := 2, entry_id := 2, ledger_id := 1,
                  debit_amount := 0, credit_amount := 3000, description := none }]
    financial_years := []
    next_entry_id := 3
    next_detail_id := 3 }

/-! ## Helper lemmas -/

/-- With no store failure the detail INSERT loop succeeds, returns the
entry, only appends to the details table, and every appended row belongs
to the given entry. -/
theorem insertDetails_none_spec (entry : TransactionEntry) :
    ∀ (ds : List CreateTransactionDetailInput) (db : DB) (opIdx : Nat),
      ∃ db2, insertDetails none opIdx entry db ds = (db2, .ok entry) ∧
        db2.ledgers = db.ledgers ∧ db2.entries = db.entries ∧
        db2.financial_years = db.financial_years ∧
        ∃ nds, db2.details = db.details ++ nds ∧
          ∀ nd ∈ nds, nd.entry_id = entry.id := by
  intro ds
  induction ds with
  | nil =>
    intro db opIdx
    exact ⟨db, rfl, rfl, rfl, rfl, [], by simp, by simp⟩
  | cons d rest ih =>
    intro db opIdx
    obtain ⟨db2, heq, hled, hent, hfy, nds, hdet, hnd⟩ :=
      ih { db with
            details := db.details ++
              [{ id := db.next_detail_id, entry_id := entry.id, ledger_id := d.ledger_id,
                 debit_amount := d.debit_amount, credit_amount := d.credit_amount,
                 description := d.description }]
            next_detail_id := db.next_detail_id + 1 } (opIdx + 1)
    refine ⟨db2, ?_, hled, hent, hfy,
      { id := db.next_detail_id, entry_id := entry.id, ledger_id := d.ledger_id,
        debit_amount := d.debit_amount, credit_amount := d.credit_amount,
        description := d.description } :: nds, ?_, ?_⟩
    · simpa [insertDetails] using heq
    · simpa [List.append_assoc] using hdet
    · intro nd hndm
      rcases List.mem_cons.mp hndm with rfl | hndm
      · rfl
      · exact hnd _ hndm

/-- When every input line names an existing ledger, the ledger-existence
loop finds nothing missing. -/
theorem findMissingLedger_eq_none {db : DB} {ds : List CreateTransactionDetailInput}
    (h : ∀ d ∈ ds, ∃ l ∈ db.ledgers, l.id = d.ledger_id) :
    findMissingLedger db ds = none := by
  rw [findMissingLedger, Option.map_eq_none', List.find?_eq_none]
  intro d hd
  obtain ⟨l, hl, hid⟩ := h d hd
  have hany : db.ledgers.any (fun la => la.id == d.ledger_id) = true :=
    List.any_eq_true.mpr ⟨l, hl, by simp [hid]⟩
  simp [hany]

/-! ## Claims -/

/-- C1. The trial balance is claimed to sum debit and credit amounts over
exactly the details whose owning entry is dated on or before as_on_date.
The query places the date bound in the ON clause of the entries LEFT JOIN
while the details join is undated, so the sums range over every detail of
the ledger: with a single entry dated 10 and as_on_date 3 the report shows
total_debit 5, while the sum the claim describes is 0. -/
theorem getTrialBalance_date_bound_is_inert :
    (getTrialBalance dbLateEntry 3).map (fun r => r.total_debit) = [5] ∧
    dbLateEntry.entries.map (fun e => e.entry_date) = [10] ∧
    specTotalDebit dbLateEntry 3 1 = 0 := by
  refine ⟨?_, by decide, by decide⟩
  norm_num [getTrialBalance, sortLedgersByName, mkTrialBalanceRow, tbTotalDebit,
    tbTotalCredit, tbDetailRows, dbLateEntry, List.insertionSort, List.orderedInsert,
    closingSigned]

/-- C2. Every row of the trial balance derives its closing balance as the
absolute value of signed = opening + debits - credits for a debit-type
ledger (opening + credits - debits for a credit-type one), and its closing
balance type keeps the ledger type when signed is non-negative and flips
to the opposite type when signed is negative. -/
theorem getTrialBalance_closing_derivation (db : DB) (asOn : Int)
    (row : TrialBalanceRow) (h : row ∈ getTrialBalance db asOn) :
    row.closing_balance =
      |(if row.balance_type = .debit
        then row.opening_balance + row.total_debit - row.total_credit
        else row.opening_balance + row.total_credit - row.total_debit)| ∧
    row.closing_balance_type =
      (if 0 ≤ (if row.balance_type = .debit
               then row.opening_balance + row.total_debit - row.total_credit
               else row.opening_balance + row.total_credit - row.total_debit)
       then row.balance_type else row.balance_type.opposite) := by
  rcases List.mem_map.mp h with ⟨l, _, rfl⟩
  cases hbt : l.balance_type <;>
    simp [mkTrialBalanceRow, closingSigned, hbt]

/-- Witness for C2 on the round-trip scenario of the spec: Cash, opening
10000 debit, debited 5000 and credited 3000. -/
theorem getTrialBalance_closing_derivation_witness :
    (mkTrialBalanceRow dbRoundTrip 31 cashRoundTrip) ∈ getTrialBalance dbRoundTrip 31 ∧
    ((mkTrialBalanceRow dbRoundTrip 31 cashRoundTrip).closing_balance =
      |(if (mkTrialBalanceRow dbRoundTrip 31 cashRoundTrip).balance_type = .debit
        then (mkTrialBalanceRow dbRoundTrip 31 cashRoundTrip).opening_balance +
          (mkTrialBalanceRow dbRoundTrip 31 cashRoundTrip).total_debit -
          (mkTrialBalanceRow dbRoundTrip 31 cashRoundTrip).total_credit
        else (mkTrialBalanceRow dbRoundTrip 31 cashRoundTrip).opening_balance +
          (mkTrialBalanceRow dbRoundTrip 31 cashRoundTrip).total_credit -
          (mkTrialBalanceRow dbRoundTrip 31 cashRoundTrip).total_debit)| ∧
    (mkTrialBalanceRow dbRoundTrip 31 cashRoundTrip).closing_balance_type =
      (if 0 ≤ (if (mkTrialBalanceRow dbRoundTrip 31 cashRoundTrip).balance_type = .debit
               then (mkTrialBalanceRow dbRoundTrip 31 cashRoundTrip).opening_balance +
                 (mkTrialBalanceRow dbRoundTrip 31 cashRoundTrip).total_debit -
                 (mkTrialBalanceRow dbRoundTrip 31 cashRoundTrip).total_credit
               else (mkTrialBalanceRow dbRoundTrip 31 cashRoundTrip).opening_balance +
                 (mkTrialBalanceRow dbRoundTrip 31 cashRoundTrip).total_credit -
                 (mkTrialBalanceRow dbRoundTrip 31 cashRoundTrip).total_debit)
       then (mkTrialBalanceRow dbRoundTrip 31 cashRoundTrip).balance_type
       else (mkTrialBalanceRow dbRoundTrip 31 cashRoundTrip).balance_type.opposite)) :=
  ⟨List.mem_singleton.mpr rfl,
   getTrialBalance_closing_derivation dbRoundTrip 31 _ (List.mem_singleton.mpr rfl)⟩

/-- Two ledgers for the create-transaction scenarios. -/
def dbTwoLedgers : DB :=
  { ledgers := [{ id := 1, name := "Cash", group_id := 1, contact_id := none,
                  opening_balance := 0, balance_type := .debit },
                { id := 2, name := "Sales", group_id := 1, contact_id := none,
                  opening_balance := 0, balance_type := .credit }]
    groups := [{ id := 1, name := "General", parent_group_id := none }]
    entries := []
    details := []
    financial_years := []
    next_entry_id := 1
    next_detail_id := 1 }

/-- A balanced two-line input naming the two existing ledgers. -/
def inputBalanced : CreateTransactionInput :=
  { entry_date := 5
    description := "balanced"
    details := [{ ledger_id := 1, debit_amount := 5, credit_amount := 0, description := none },
                { ledger_id := 2, debit_amount := 0, credit_amount := 5, description := none }] }

/-- A two-line input whose second line names the missing ledger 99. -/
def inputBadLedger : CreateTransactionInput :=
  { entry_date := 5
    description := "bad ledger"
    details := [{ ledger_id := 1, debit_amount := 5, credit_amount := 0, description := none },
                { ledger_id := 99, debit_amount := 0, credit_amount := 5, description := none }] }

/-- A balanced two-line input in which every amount is zero. -/
def inputAllZero : CreateTransactionInput :=
  { entry_date := 5
    description := "degenerate"
    details := [{ ledger_id := 1, debit_amount := 0, credit_amount := 0, description := none },
                { ledger_id := 2, debit_amount := 0, credit_amount := 0, description := none }] }

/-- C3. The validation path is clean: a second line naming a missing
ledger fails before any write, leaving the store untouched. But the entry
and detail INSERTs are issued without a surrounding transaction, so when
the store fails the write of the second detail line (operation index 2:
the entry insert is 0, the first detail 1), the already written entry row
and first detail row stay behind: one new entry and one new detail are
visible although the call failed, refuting all-or-nothing persistence. -/
theorem createTransaction_not_atomic :
    createTransaction none 0 dbTwoLedgers inputBadLedger =
      (dbTwoLedgers, .err "Ledger with id 99 does not exist") ∧
    (createTransaction (some 2) 0 dbTwoLedgers inputBalanced).1.entries.length = 1 ∧
    (createTransaction (some 2) 0 dbTwoLedgers inputBalanced).1.details.length = 1 ∧
    (createTransaction (some 2) 0 dbTwoLedgers inputBalanced).2 = .err "insert failed" := by
  have h2 : findMissingLedger dbTwoLedgers inputBalanced.details = none := by decide
  refine ⟨by decide, ?_, ?_, ?_⟩ <;>
  · simp only [createTransaction]
    rw [h2]
    norm_num [inputBalanced, insertDetails, dbTwoLedgers]

/-- C4. With every referenced ledger present, creation rejects the input
with the unbalanced-entry error and leaves the store untouched when the
debit and credit totals differ by more than 0.01, and succeeds whenever
they differ by at most 0.01. -/
theorem createTransaction_balance_epsilon (now : Nat) (db : DB)
    (input : CreateTransactionInput)
    (hled : ∀ d ∈ input.details, ∃ l ∈ db.ledgers, l.id = d.ledger_id) :
    ((1 : ℚ)/100 < |(input.details.map (fun d => d.debit_amount)).sum -
        (input.details.map (fun d => d.credit_amount)).sum| →
      createTransaction none now db input =
        (db, .err "Total debits must equal total credits")) ∧
    (|(input.details.map (fun d => d.debit_amount)).sum -
        (input.details.map (fun d => d.credit_amount)).sum| ≤ (1 : ℚ)/100 →
      ∃ db2 entry, createTransaction none now db input = (db2, .ok entry)) := by
  have hmiss := findMissingLedger_eq_none hled
  constructor
  · intro hgt
    simp only [createTransaction, hmiss]
    rw [if_pos hgt]
  · intro hle
    have hnot := not_lt.mpr hle
    obtain ⟨db2, heq, -, -, -, -, -⟩ := insertDetails_none_spec
      { id := db.next_entry_id
        entry_number := "TXN-" ++ toString now
        entry_date := input.entry_date
        description := input.description
        total_amount := (input.details.map (fun d => d.debit_amount)).sum
        is_correction := false
        original_entry_id := none }
      input.details
      { db with
          entries := db.entries ++
            [{ id := db.next_entry_id
               entry_number := "TXN-" ++ toString now
               entry_date := input.entry_date
               description := input.description
               total_amount := (input.details.map (fun d => d.debit_amount)).sum
               is_correction := false
               original_entry_id := none }]
          next_entry_id := db.next_entry_id + 1 } 1
    exact ⟨db2, _, by
      simp only [createTransaction, hmiss]
      rw [if_neg hnot, if_neg (fun h => Option.noConfusion h)]
      exact heq⟩

/-- Witness for C4 on the degenerate all-zero input: both referenced
ledgers exist, the totals differ by 0 which is within the epsilon, and
the creation succeeds. -/
theorem createTransaction_balance_epsilon_witness :
    (∀ d ∈ inputAllZero.details, ∃ l ∈ dbTwoLedgers.ledgers, l.id = d.ledger_id) ∧
    (|(inputAllZero.details.map (fun d => d.debit_amount)).sum -
        (inputAllZero.details.map (fun d => d.credit_amount)).sum| ≤ (1 : ℚ)/100) ∧
    (∃ db2 entry, createTransaction none 0 dbTwoLedgers inputAllZero = (db2, .ok entry)) :=
  ⟨by decide, by norm_num [inputAllZero],
   (createTransaction_balance_epsilon 0 dbTwoLedgers inputAllZero (by decide)).2
     (by norm_num [inputAllZero])⟩

/-- C5. The profit and loss report is claimed to restrict the per-ledger
totals to entries dated inside the window. The window bounds sit in the ON
clause of the entries LEFT JOIN while the details join is undated, so the
totals again range over every detail: with a single entry dated 10 and the
window 1 to 3, the credit-type ledger is classified as income with amount
5 and total_income is 5, while the window-restricted total the claim
describes is 0 (the ledger should be excluded and total_income 0). -/
theorem getProfitAndLoss_window_is_inert :
    (getProfitAndLoss dbLateCredit 1 3).total_income = 5 ∧
    (getProfitAndLoss dbLateCredit 1 3).income.map (fun r => r.ledger_id) = [1] ∧
    dbLateCredit.entries.map (fun e => e.entry_date) = [10] ∧
    specWindowCredit dbLateCredit 1 3 1 = 0 := by
  refine ⟨?_, ?_, by decide, by decide⟩ <;>
    norm_num [getProfitAndLoss, plSort, plJoinLedgers, plStep, plTotalDebit,
      plTotalCredit, plDetailRows, dbLateCredit, List.insertionSort,
      List.orderedInsert, List.find?, List.filterMap]

/-- The report line getBalanceSheet builds for one joined ledger. -/
def bsRowOf (db : DB) (asOn : Int) (lg : Ledger × Group) : ReportLedgerRow :=
  { ledger_id := lg.1.id, ledger_name := lg.1.name, group_name := lg.2.name,
    amount := |bsClosing db asOn lg.1| }

/-- A joined ledger lands in the assets bucket: material closing balance,
and either a positive closing on a debit-type ledger or a negative closing
on a credit-type one. -/
def bsAssetP (db : DB) (asOn : Int) (lg : Ledger × Group) : Prop :=
  (1 : ℚ)/100 < |bsClosing db asOn lg.1| ∧
    (0 < bsClosing db asOn lg.1 ∧ lg.1.balance_type = .debit ∨
     bsClosing db asOn lg.1 < 0 ∧ lg.1.balance_type = .credit)

/-- A joined ledger lands in the liabilities bucket. -/
def bsLiabP (db : DB) (asOn : Int) (lg : Ledger × Group) : Prop :=
  (1 : ℚ)/100 < |bsClosing db asOn lg.1| ∧
    (0 < bsClosing db asOn lg.1 ∧ lg.1.balance_type = .credit ∨
     bsClosing db asOn lg.1 < 0 ∧ lg.1.balance_type = .debit)

instance (db : DB) (asOn : Int) (lg : Ledger × Group) : Decidable (bsAssetP db asOn lg) := by
  unfold bsAssetP; infer_instance

instance (db : DB) (asOn : Int) (lg : Ledger × Group) : Decidable (bsLiabP db asOn lg) := by
  unfold bsLiabP; infer_instance

/-- One getBalanceSheet loop iteration, rephrased: the asset list and total
grow exactly when the asset condition holds, the liability list and total
exactly when the liability condition holds. -/
theorem bsStep_eq (db : DB) (asOn : Int) (acc : BSAcc) (lg : Ledger × Group) :
    bsStep db asOn acc lg =
      (acc.1 ++ if bsAssetP db asOn lg then [bsRowOf db asOn lg] else [],
       acc.2.1 ++ if bsLiabP db asOn lg then [bsRowOf db asOn lg] else [],
       acc.2.2.1 + (if bsAssetP db asOn lg then |bsClosing db asOn lg.1| else 0),
       acc.2.2.2 + (if bsLiabP db asOn lg then |bsClosing db asOn lg.1| else 0)) := by
  obtain ⟨A, L, ta, tl⟩ := acc
  by_cases h1 : (100 : ℚ)⁻¹ < |bsClosing db asOn lg.1|
  · rcases lt_trichotomy 0 (bsClosing db asOn lg.1) with h2 | h2 | h2
    · cases hbt : lg.1.balance_type <;>
        simp [bsStep, bsAssetP, bsLiabP, bsRowOf, one_div, h1, h2, hbt, lt_asymm h2]
    · exfalso
      rw [← h2] at h1
      norm_num at h1
    · cases hbt : lg.1.balance_type <;>
        simp [bsStep, bsAssetP, bsLiabP, bsRowOf, one_div, h1, h2, hbt, lt_asymm h2]
  · simp [bsStep, bsAssetP, bsLiabP, one_div, h1]

/-- The getBalanceSheet fold in closed form: buckets are filters of the
joined ledger list, totals are the sums of the corresponding amounts. -/
theorem bsFold_spec (db : DB) (asOn : Int) :
    ∀ (xs : List (Ledger × Group)) (A L : List ReportLedgerRow) (ta tl : ℚ),
      xs.foldl (bsStep db asOn) (A, L, ta, tl) =
        (A ++ (xs.filter (fun lg => decide (bsAssetP db asOn lg))).map (bsRowOf db asOn),
         L ++ (xs.filter (fun lg => decide (bsLiabP db asOn lg))).map (bsRowOf db asOn),
         ta + ((xs.filter (fun lg => decide (bsAssetP db asOn lg))).map
           (fun lg => |bsClosing db asOn lg.1|)).sum,
         tl + ((xs.filter (fun lg => decide (bsLiabP db asOn lg))).map
           (fun lg => |bsClosing db asOn lg.1|)).sum) := by
  intro xs
  induction xs with
  | nil => intro A L ta tl; simp
  | cons lg rest ih =>
    intro A L ta tl
    rw [List.foldl_cons, bsStep_eq, ih]
    by_cases ha : bsAssetP db asOn lg <;> by_cases hl : bsLiabP db asOn lg <;>
      simp [ha, hl, List.filter_cons, add_assoc, List.append_assoc]

/-- getBalanceSheet in closed form. -/
theorem getBalanceSheet_eq (db : DB) (asOn : Int) :
    getBalanceSheet db asOn =
      { as_on_date := asOn
        assets := ((plSort (plJoinLedgers db)).filter
          (fun lg => decide (bsAssetP db asOn lg))).map (bsRowOf db asOn)
        liabilities := ((plSort (plJoinLedgers db)).filter
          (fun lg => decide (bsLiabP db asOn lg))).map (bsRowOf db asOn)
        total_assets := (((plSort (plJoinLedgers db)).filter
          (fun lg => decide (bsAssetP db asOn lg))).map
            (fun lg => |bsClosing db asOn lg.1|)).sum
        total_liabilities := (((plSort (plJoinLedgers db)).filter
          (fun lg => decide (bsLiabP db asOn lg))).map
            (fun lg => |bsClosing db asOn lg.1|)).sum
        difference := (((plSort (plJoinLedgers db)).filter
          (fun lg => decide (bsAssetP db asOn lg))).map
            (fun lg => |bsClosing db asOn lg.1|)).sum -
          (((plSort (plJoinLedgers db)).filter
            (fun lg => decide (bsLiabP db asOn lg))).map
              (fun lg => |bsClosing db asOn lg.1|)).sum } := by
  unfold getBalanceSheet
  rw [bsFold_spec]
  simp

/-- C6. Every row of the balance sheet comes from a joined ledger whose
closing balance exceeds 0.01 in absolute value and satisfies the matching
classification (so ledgers with |closing| <= 0.01 are excluded); every
joined ledger with a material closing balance is classified as an asset
when it is debit-type with non-negative closing or credit-type with
negative closing, symmetrically as a liability; and the report returns
difference = total_assets - total_liabilities, the totals being the sums
of the reported amounts. -/
theorem getBalanceSheet_classification (db : DB) (asOn : Int) :
    (∀ row ∈ (getBalanceSheet db asOn).assets,
      ∃ lg ∈ plJoinLedgers db, row = bsRowOf db asOn lg ∧
        (1 : ℚ)/100 < |bsClosing db asOn lg.1| ∧
        (0 ≤ bsClosing db asOn lg.1 ∧ lg.1.balance_type = .debit ∨
         bsClosing db asOn lg.1 < 0 ∧ lg.1.balance_type = .credit)) ∧
    (∀ row ∈ (getBalanceSheet db asOn).liabilities,
      ∃ lg ∈ plJoinLedgers db, row = bsRowOf db asOn lg ∧
        (1 : ℚ)/100 < |bsClosing db asOn lg.1| ∧
        (0 ≤ bsClosing db asOn lg.1 ∧ lg.1.balance_type = .credit ∨
         bsClosing db asOn lg.1 < 0 ∧ lg.1.balance_type = .debit)) ∧
    (∀ lg ∈ plJoinLedgers db, (1 : ℚ)/100 < |bsClosing db asOn lg.1| →
      ((0 ≤ bsClosing db asOn lg.1 ∧ lg.1.balance_type = .debit ∨
        bsClosing db asOn lg.1 < 0 ∧ lg.1.balance_type = .credit) →
        bsRowOf db asOn lg ∈ (getBalanceSheet db asOn).assets) ∧
      ((0 ≤ bsClosing db asOn lg.1 ∧ lg.1.balance_type = .credit ∨
        bsClosing db asOn lg.1 < 0 ∧ lg.1.balance_type = .debit) →
        bsRowOf db asOn lg ∈ (getBalanceSheet db asOn).liabilities)) ∧
    (getBalanceSheet db asOn).total_assets =
      (((getBalanceSheet db asOn).assets).map (fun r => r.amount)).sum ∧
    (getBalanceSheet db asOn).total_liabilities =
      (((getBalanceSheet db asOn).liabilities).map (fun r => r.amount)).sum ∧
    (getBalanceSheet db asOn).difference =
      (getBalanceSheet db asOn).total_assets - (getBalanceSheet db asOn).total_liabilities := by
  have hne : ∀ lg : Ledger × Group, (1 : ℚ)/100 < |bsClosing db asOn lg.1| →
      bsClosing db asOn lg.1 ≠ 0 := by
    intro lg h1 hc
    rw [hc] at h1
    norm_num at h1
  rw [getBalanceSheet_eq]
  refine ⟨?_, ?_, ?_, ?_, ?_, rfl⟩
  · intro row hrow
    rcases List.mem_map.mp hrow with ⟨lg, hlg, rfl⟩
    rcases List.mem_filter.mp hlg with ⟨hmem, hcond⟩
    have hP : bsAssetP db asOn lg := of_decide_eq_true hcond
    refine ⟨lg, (List.perm_insertionSort _ _).mem_iff.mp hmem, rfl, hP.1, ?_⟩
    rcases hP.2 with ⟨hpos, hbt⟩ | ⟨hneg, hbt⟩
    · exact Or.inl ⟨le_of_lt hpos, hbt⟩
    · exact Or.inr ⟨hneg, hbt⟩
  · intro row hrow
    rcases List.mem_map.mp hrow with ⟨lg, hlg, rfl⟩
    rcases List.mem_filter.mp hlg with ⟨hmem, hcond⟩
    have hP : bsLiabP db asOn lg := of_decide_eq_true hcond
    refine ⟨lg, (List.perm_insertionSort _ _).mem_iff.mp hmem, rfl, hP.1, ?_⟩
    rcases hP.2 with ⟨hpos, hbt⟩ | ⟨hneg, hbt⟩
    · exact Or.inl ⟨le_of_lt hpos, hbt⟩
    · exact Or.inr ⟨hneg, hbt⟩
  · intro lg hlg h1
    have hsort : lg ∈ plSort (plJoinLedgers db) :=
      (List.perm_insertionSort _ _).mem_iff.mpr hlg
    constructor
    · intro hcl
      refine List.mem_map.mpr ⟨lg, List.mem_filter.mpr ⟨hsort, decide_eq_true ?_⟩, rfl⟩
      refine ⟨h1, ?_⟩
      rcases hcl with ⟨hge, hbt⟩ | ⟨hneg, hbt⟩
      · exact Or.inl ⟨lt_of_le_of_ne hge (fun h => hne lg h1 h.symm), hbt⟩
      · exact Or.inr ⟨hneg, hbt⟩
    · intro hcl
      refine List.mem_map.mpr ⟨lg, List.mem_filter.mpr ⟨hsort, decide_eq_true ?_⟩, rfl⟩
      refine ⟨h1, ?_⟩
      rcases hcl with ⟨hge, hbt⟩ | ⟨hneg, hbt⟩
      · exact Or.inl ⟨lt_of_le_of_ne hge (fun h => hne lg h1 h.symm), hbt⟩
      · exact Or.inr ⟨hneg, hbt⟩
  · rw [List.map_map]
    rfl
  · rw [List.map_map]
    rfl

/-- Witness for C6 on the round-trip store: Cash closes at 12000 on the
debit side, is material, and is reported as an asset; the difference
equation holds. -/
theorem getBalanceSheet_classification_witness :
    ((cashRoundTrip, assetsGroup) ∈ plJoinLedgers dbRoundTrip) ∧
    ((1 : ℚ)/100 < |bsClosing dbRoundTrip 31 cashRoundTrip|) ∧
    (0 ≤ bsClosing dbRoundTrip 31 cashRoundTrip) ∧
    bsRowOf dbRoundTrip 31 (cashRoundTrip, assetsGroup) ∈ (getBalanceSheet dbRoundTrip 31).assets ∧
    (getBalanceSheet dbRoundTrip 31).difference =
      (getBalanceSheet dbRoundTrip 31).total_assets -
        (getBalanceSheet dbRoundTrip 31).total_liabilities := by
  have hgt : (1 : ℚ)/100 < |bsClosing dbRoundTrip 31 cashRoundTrip| := by
    norm_num [bsClosing, closingSigned, tbTotalDebit, tbTotalCredit, tbDetailRows,
      dbRoundTrip, cashRoundTrip, List.find?]
  have hge : 0 ≤ bsClosing dbRoundTrip 31 cashRoundTrip := by
    norm_num [bsClosing, closingSigned, tbTotalDebit, tbTotalCredit, tbDetailRows,
      dbRoundTrip, cashRoundTrip, List.find?]
  have hmem : (cashRoundTrip, assetsGroup) ∈ plJoinLedgers dbRoundTrip := by decide
  exact ⟨hmem, hgt, hge,
    ((getBalanceSheet_classification dbRoundTrip 31).2.2.1 _ hmem hgt).1 (Or.inl ⟨hge, rfl⟩),
    (getBalanceSheet_classification dbRoundTrip 31).2.2.2.2.2⟩

/-- C7. Correcting an existing entry X (with valid, balanced correction
lines) appends a new entry with is_correction set, original_entry_id
pointing at X, a fresh id and its own COR entry number, and appends its
own detail lines, all attached to the new entry; the pre-existing entry
rows (X included) and detail rows (those of X included) are untouched.
Correcting a missing id fails with the not-found error and changes
nothing. -/
theorem correctTransaction_additive (now : Nat) (db : DB) (cd : CreateTransactionInput) :
    (∀ X ∈ db.entries,
      (∀ d ∈ cd.details, ∃ l ∈ db.ledgers, l.id = d.ledger_id) →
      |(cd.details.map (fun d => d.debit_amount)).sum -
        (cd.details.map (fun d => d.credit_amount)).sum| ≤ (1 : ℚ)/100 →
      ∃ db2 entry, correctTransaction none now db X.id cd = (db2, .ok entry) ∧
        entry.is_correction = true ∧
        entry.original_entry_id = some X.id ∧
        entry.id = db.next_entry_id ∧
        entry.entry_number = "COR-" ++ toString X.id ++ "-" ++ toString now ∧
        db2.entries = db.entries ++ [entry] ∧
        ∃ nds, db2.details = db.details ++ nds ∧ ∀ nd ∈ nds, nd.entry_id = entry.id) ∧
    (∀ badId, (∀ e ∈ db.entries, e.id ≠ badId) →
      correctTransaction none now db badId cd =
        (db, .err ("Original transaction with id " ++ toString badId ++ " not found"))) := by
  constructor
  · intro X hX hled hle
    have hex : db.entries.any (fun e => e.id == X.id) = true :=
      List.any_eq_true.mpr ⟨X, hX, by simp⟩
    have hmiss := findMissingLedger_eq_none hled
    have hnot := not_lt.mpr hle
    obtain ⟨db2, heq, -, hent, -, nds, hdet, hnd⟩ := insertDetails_none_spec
      { id := db.next_entry_id
        entry_number := "COR-" ++ toString X.id ++ "-" ++ toString now
        entry_date := cd.entry_date
        description := cd.description
        total_amount := (cd.details.map (fun d => d.debit_amount)).sum
        is_correction := true
        original_entry_id := some X.id }
      cd.details
      { db with
          entries := db.entries ++
            [{ id := db.next_entry_id
               entry_number := "COR-" ++ toString X.id ++ "-" ++ toString now
               entry_date := cd.entry_date
               description := cd.description
               total_amount := (cd.details.map (fun d => d.debit_amount)).sum
               is_correction := true
               original_entry_id := some X.id }]
          next_entry_id := db.next_entry_id + 1 } 1
    refine ⟨db2, _, ?_, rfl, rfl, rfl, rfl, hent, nds, hdet, hnd⟩
    simp only [correctTransaction, hex, Bool.not_true, Bool.false_eq_true, if_false, hmiss]
    rw [if_neg hnot, if_neg (fun h => Option.noConfusion h)]
    exact heq
  · intro badId hbad
    have hex : db.entries.any (fun e => e.id == badId) = false := by
      rw [List.any_eq_false]
      intro e he
      simp [hbad e he]
    simp [correctTransaction, hex]

/-- An existing entry with two detail lines, against the two-ledger
store, used by the correction witness. -/
def dbWithEntry : DB :=
  { dbTwoLedgers with
      entries := [{ id := 1, entry_number := "TXN-1", entry_date := 4,
                    description := "original", total_amount := 7,
                    is_correction := false, original_entry_id := none }]
      details := [{ id := 1, entry_id := 1, ledger_id := 1,
                    debit_amount := 7, credit_amount := 0, description := none },
                  { id := 2, entry_id := 1, ledger_id := 2,
                    debit_amount := 0, credit_amount := 7, description := none }]
      next_entry_id := 2
      next_detail_id := 3 }

/-- The original entry stored in dbWithEntry. -/
def entryX : TransactionEntry :=
  { id := 1, entry_number := "TXN-1", entry_date := 4,
    description := "original", total_amount := 7,
    is_correction := false, original_entry_id := none }

/-- Witness for C7: correcting the stored entry with a balanced two-line
input succeeds and satisfies every clause of the success conjunct. -/
theorem correctTransaction_additive_witness :
    (entryX ∈ dbWithEntry.entries) ∧
    (∀ d ∈ inputBalanced.details, ∃ l ∈ dbWithEntry.ledgers, l.id = d.ledger_id) ∧
    (|(inputBalanced.details.map (fun d => d.debit_amount)).sum -
        (inputBalanced.details.map (fun d => d.credit_amount)).sum| ≤ (1 : ℚ)/100) ∧
    (∃ db2 entry, correctTransaction none 0 dbWithEntry entryX.id inputBalanced = (db2, .ok entry) ∧
      entry.is_correction = true ∧
      entry.original_entry_id = some entryX.id ∧
      entry.id = dbWithEntry.next_entry_id ∧
      entry.entry_number = "COR-" ++ toString entryX.id ++ "-" ++ toString 0 ∧
      db2.entries = dbWithEntry.entries ++ [entry] ∧
      ∃ nds, db2.details = dbWithEntry.details ++ nds ∧ ∀ nd ∈ nds, nd.entry_id = entry.id) :=
  ⟨by decide, by decide, by norm_num [inputBalanced],
   (correctTransaction_additive 0 dbWithEntry inputBalanced).1 entryX (by decide)
     (by decide) (by norm_num [inputBalanced])⟩

/-- A two-line raw request in which the first line carries a negative
debit amount. -/
def rawNegativeInput : RawCreateTransactionInput :=
  { entry_date := 1
    description := "neg"
    details := [{ ledger_id := 1, debit_amount := some (-5), credit_amount := none,
                  description := none },
                { ledger_id := 2, debit_amount := none, credit_amount := some 5,
                  description := none }] }

/-- A raw request with a single line. -/
def rawOneLine : RawCreateTransactionInput :=
  { entry_date := 1
    description := "short"
    details := [{ ledger_id := 1, debit_amount := some 5, credit_amount := none,
                  description := none }] }

/-- C8 counterexample. The input schema accepts a request whose first line
has debit_amount = -5: the details array carries no non-negativity
constraint, refuting the claim that accepted inputs have only non-negative
amounts. -/
theorem createTransactionInputSchema_accepts_negative_amount :
    (createTransactionInputSchema rawNegativeInput).map
      (fun p => p.details.map (fun d => d.debit_amount)) = some [-5, 0] ∧
    ((-5 : ℚ) < 0) := by
  constructor
  · rfl
  · norm_num

/-- C8 as amended. Every accepted input has at least 2 lines (the line
count of the request) and a non-empty description, and a request with
fewer than 2 lines is rejected by the schema; the schema does not
constrain the sign of the amounts. -/
theorem createTransactionInputSchema_line_count (raw : RawCreateTransactionInput) :
    (∀ parsed, createTransactionInputSchema raw = some parsed →
      2 ≤ parsed.details.length ∧ 1 ≤ parsed.description.length) ∧
    (raw.details.length < 2 → createTransactionInputSchema raw = none) := by
  constructor
  · intro parsed h
    by_cases hc : 1 ≤ raw.description.length ∧ 2 ≤ raw.details.length
    · rw [createTransactionInputSchema, if_pos hc] at h
      cases Option.some.inj h
      constructor
      · simpa using hc.2
      · exact hc.1
    · rw [createTransactionInputSchema, if_neg hc] at h
      exact Option.noConfusion h
  · intro hlt
    rw [createTransactionInputSchema, if_neg]
    exact fun hc => absurd hc.2 (not_le.mpr hlt)

/-- Witness for C8 as amended: the negative-amount request parses with 2
lines and a non-empty description, and the one-line request is rejected. -/
theorem createTransactionInputSchema_line_count_witness :
    (∃ parsed, createTransactionInputSchema rawNegativeInput = some parsed ∧
      2 ≤ parsed.details.length ∧ 1 ≤ parsed.description.length) ∧
    (rawOneLine.details.length < 2 ∧ createTransactionInputSchema rawOneLine = none) := by
  constructor
  · refine ⟨_, rfl, ?_⟩
    exact (createTransactionInputSchema_line_count rawNegativeInput).1 _ rfl
  · exact ⟨by decide,
      (createTransactionInputSchema_line_count rawOneLine).2 (by decide)⟩

/-- Supporting invariant for setActiveFinancialYear: on a store whose
financial-year ids are distinct, at most one financial year is active
after any completed call; and when the call returns successfully, the
returned year is the target, it is active, a stored year is active
exactly when it is the target, and exactly one stored year is active. -/
theorem setActiveFinancialYear_single_active (db : DB) (fyId : Nat)
    (hnodup : (db.financial_years.map (fun fy => fy.id)).Nodup) :
    ((setActiveFinancialYear db fyId).1.financial_years.countP
      (fun fy => fy.is_active) ≤ 1) ∧
    (∀ fy, (setActiveFinancialYear db fyId).2 = .ok fy →
      fy.id = fyId ∧ fy.is_active = true ∧
      (∀ g ∈ (setActiveFinancialYear db fyId).1.financial_years,
        g.is_active = true ↔ g.id = fyId) ∧
      (setActiveFinancialYear db fyId).1.financial_years.countP
        (fun fy => fy.is_active) = 1) := by
  have hstate : (setActiveFinancialYear db fyId).1.financial_years =
      db.financial_years.map (fun x =>
        if x.id == fyId then { x with is_active := true }
        else { x with is_active := false }) := by
    simp only [setActiveFinancialYear, List.map_map]
    rfl
  have hcount : (setActiveFinancialYear db fyId).1.financial_years.countP
      (fun fy => fy.is_active) =
      db.financial_years.countP (fun x => x.id == fyId) := by
    rw [hstate, List.countP_map]
    congr 1
    funext x
    by_cases h : x.id == fyId <;> simp [Function.comp, h]
  have hle : db.financial_years.countP (fun x => x.id == fyId) ≤ 1 := by
    have h1 : db.financial_years.countP (fun x => x.id == fyId) =
        (db.financial_years.map (fun fy => fy.id)).count fyId := by
      rw [List.count, List.countP_map]
      rfl
    rw [h1]
    exact List.nodup_iff_count_le_one.mp hnodup fyId
  refine ⟨by rw [hcount]; exact hle, ?_⟩
  intro fy hfy
  rcases hfil : ((db.financial_years.map (fun fy => { fy with is_active := false })).map
      (fun fy => if fy.id == fyId then { fy with is_active := true } else fy)).filter
        (fun fy => fy.id == fyId) with _ | ⟨fy0, rest⟩
  · rw [setActiveFinancialYear] at hfy
    simp only [hfil] at hfy
    exact FYResult.noConfusion hfy
  · rw [setActiveFinancialYear] at hfy
    simp only [hfil] at hfy
    have hsub : fy = fy0 := (FYResult.ok.inj hfy).symm
    subst hsub
    have hmemfil : fy ∈ ((db.financial_years.map (fun fy => { fy with is_active := false })).map
        (fun fy => if fy.id == fyId then { fy with is_active := true } else fy)).filter
          (fun fy => fy.id == fyId) := by
      rw [hfil]; exact List.mem_cons_self _ _
    have hid : fy.id = fyId := by
      have := (List.mem_filter.mp hmemfil).2
      simpa using this
    have hmem : fy ∈ (setActiveFinancialYear db fyId).1.financial_years := by
      have := (List.mem_filter.mp hmemfil).1
      simpa [setActiveFinancialYear] using this
    have hiff : ∀ g ∈ (setActiveFinancialYear db fyId).1.financial_years,
        g.is_active = true ↔ g.id = fyId := by
      intro g hg
      rw [hstate] at hg
      rcases List.mem_map.mp hg with ⟨x, -, rfl⟩
      by_cases h : x.id == fyId <;> simp_all
    have hact : fy.is_active = true := (hiff fy hmem).mpr hid
    refine ⟨hid, hact, hiff, ?_⟩
    have hpos : 0 < db.financial_years.countP (fun x => x.id == fyId) := by
      rw [hstate] at hmem
      rcases List.mem_map.mp hmem with ⟨x, hx, hxeq⟩
      have hxid : x.id = fyId := by
        by_cases h : (x.id == fyId) = true
        · simpa using h
        · have hxeq2 : ({ x with is_active := false } : FinancialYear) = fy := by
            rwa [if_neg h] at hxeq
          have hxf : x.id = fy.id := by rw [← hxeq2]
          rw [hxf, hid]
      exact List.countP_pos_iff.mpr ⟨x, hx, by simpa using hxid⟩
    rw [hcount]
    omega

/-- Two financial years, the first currently active. -/
def dbTwoYears : DB :=
  { ledgers := []
    groups := []
    entries := []
    details := []
    financial_years := [{ id := 1, name := "FY1", start_date := 0, end_date := 100,
                          is_active := true },
                        { id := 2, name := "FY2", start_date := 100, end_date := 200,
                          is_active := false }]
    next_entry_id := 1
    next_detail_id := 1 }

/-- Concrete instance of the supporting invariant: activating year 2 in
the two-year store keeps at most one year active and makes year 2 the
unique active year. -/
theorem setActiveFinancialYear_single_active_witness :
    ((dbTwoYears.financial_years.map (fun fy => fy.id)).Nodup) ∧
    (((setActiveFinancialYear dbTwoYears 2).1.financial_years.countP
        (fun fy => fy.is_active) ≤ 1) ∧
     (∀ fy, (setActiveFinancialYear dbTwoYears 2).2 = .ok fy →
       fy.id = 2 ∧ fy.is_active = true ∧
       (∀ g ∈ (setActiveFinancialYear dbTwoYears 2).1.financial_years,
         g.is_active = true ↔ g.id = 2) ∧
       (setActiveFinancialYear dbTwoYears 2).1.financial_years.countP
         (fun fy => fy.is_active) = 1)) :=
  ⟨by decide, setActiveFinancialYear_single_active dbTwoYears 2 (by decide)⟩

/-- C9. The claim calls the deactivate-all-then-activate-target sequence
atomic, but the two UPDATEs run as separate statements with no
surrounding transaction and the catch block only rethrows: activating the
missing year 99 on the store whose year 1 is the single active year first
persists the deactivate-all and then fails with the not-found error,
leaving zero active years where an atomic sequence would have rolled back
to the prior state with year 1 still active. (The weaker at-most-one
invariant the claim also states does hold, including at this input, and
is proved separately above.) -/
theorem setActiveFinancialYear_not_atomic :
    (setActiveFinancialYear dbTwoYears 99).2 = .err "Financial year not found" ∧
    (setActiveFinancialYear dbTwoYears 99).1.financial_years.countP
      (fun fy => fy.is_active) = 0 ∧
    dbTwoYears.financial_years.countP (fun fy => fy.is_active) = 1 := by
  refine ⟨?_, ?_, ?_⟩ <;> decide

/-- C10. Deleting a ledger or a financial year whose id is absent returns
success false without raising an error and leaves the store unchanged,
while deleting a transaction whose id is absent throws the not-found
error. -/
theorem delete_missing_id_semantics (db : DB) (targetId : Nat)
    (hl : ∀ l ∈ db.ledgers, l.id ≠ targetId)
    (hf : ∀ fy ∈ db.financial_years, fy.id ≠ targetId)
    (he : ∀ e ∈ db.entries, e.id ≠ targetId) :
    deleteLedger db targetId = (db, .ok false) ∧
    deleteFinancialYear db targetId = (db, .ok false) ∧
    deleteTransaction db targetId =
      (db, .err ("Transaction with id " ++ toString targetId ++ " not found")) := by
  have hlnil : db.ledgers.filter (fun l => l.id == targetId) = [] := by
    rw [List.filter_eq_nil_iff]
    intro l hmem
    simp [hl l hmem]
  have hlself : db.ledgers.filter (fun l => !(l.id == targetId)) = db.ledgers := by
    rw [List.filter_eq_self]
    intro l hmem
    simp [hl l hmem]
  have hfnil : db.financial_years.filter (fun fy => fy.id == targetId) = [] := by
    rw [List.filter_eq_nil_iff]
    intro fy hmem
    simp [hf fy hmem]
  have hfself : db.financial_years.filter (fun fy => !(fy.id == targetId)) =
      db.financial_years := by
    rw [List.filter_eq_self]
    intro fy hmem
    simp [hf fy hmem]
  have hany : db.entries.any (fun e => e.id == targetId) = false := by
    rw [List.any_eq_false]
    intro e hmem
    simp [he e hmem]
  refine ⟨?_, ?_, ?_⟩
  · simp [deleteLedger, hlnil, hlself]
  · simp [deleteFinancialYear, hfnil, hfself]
  · simp [deleteTransaction, hany]

/-- The empty store. -/
def dbEmpty : DB :=
  { ledgers := [], groups := [], entries := [], details := [],
    financial_years := [], next_entry_id := 1, next_detail_id := 1 }

/-- Witness for C10 on the empty store and id 7. -/
theorem delete_missing_id_semantics_witness :
    (∀ l ∈ dbEmpty.ledgers, l.id ≠ 7) ∧
    (∀ fy ∈ dbEmpty.financial_years, fy.id ≠ 7) ∧
    (∀ e ∈ dbEmpty.entries, e.id ≠ 7) ∧
    (deleteLedger dbEmpty 7 = (dbEmpty, .ok false) ∧
     deleteFinancialYear dbEmpty 7 = (dbEmpty, .ok false) ∧
     deleteTransaction dbEmpty 7 =
       (dbEmpty, .err ("Transaction with id " ++ toString 7 ++ " not found"))) :=
  ⟨by decide, by decide, by decide,
   delete_missing_id_semantics dbEmpty 7 (by decide) (by decide) (by decide)⟩

end Accounts
